import Mathlib

/-!
Shallow embedding of the Pumfun_Bot repository three source files:
`src/core/priority_fee/manager.py` (priority fee policy),
`sell.py` (bonding-curve parsing, spot price, sell submission loop), and
`learning-examples/listen-new-tokens/listen_geyser.py` (creation-event decoder).
Python byte strings are modelled as `List Nat` (each element a byte value),
Python floats as exact rationals `ℚ`, and Python `int()` truncation as `pyInt`.
-/

deriving instance DecidableEq for Except

/-- Little-endian decoding of a byte list: `b0 + 256*b1 + 256^2*b2 + ...`.
This is the value `struct.unpack` reads for the unsigned formats `<I`, `<Q`. -/
def decodeLE : List Nat → Nat
  | [] => 0
  | b :: rest => b + 256 * decodeLE rest

/-- The 8 bytes of `struct.pack("<Q", n)` for `0 ≤ n < 2^64` (little-endian). -/
def u64le (n : Nat) : List Nat :=
  [n % 256, n / 256 % 256, n / 256 ^ 2 % 256, n / 256 ^ 3 % 256,
   n / 256 ^ 4 % 256, n / 256 ^ 5 % 256, n / 256 ^ 6 % 256, n / 256 ^ 7 % 256]

theorem u64le_length (n : Nat) : (u64le n).length = 8 := rfl

/-- Round-trip: little-endian decoding inverts `struct.pack("<Q", ·)` modulo `2^64`. -/
theorem decodeLE_u64le (n : Nat) : decodeLE (u64le n) = n % 2 ^ 64 := by
  simp only [u64le, decodeLE]
  omega

/-- Python `int(q)` on a real value: truncation toward zero. -/
def pyInt (q : ℚ) : Int :=
  if 0 ≤ q then ⌊q⌋ else ⌈q⌉

theorem pyInt_nonneg (q : ℚ) (h : 0 ≤ q) : pyInt q = ⌊q⌋ := by
  simp [pyInt, h]

/-! ## Priority fee policy (`src/core/priority_fee/manager.py`) -/

/-- Configuration of `PriorityFeeManager.__init__`: `enable_dynamic_fee`,
`enable_fixed_fee`, `fixed_fee` (unsigned microlamports), `extra_fee`
(non-negative float ratio, modelled as `ℚ`), `hard_cap` (unsigned). -/
structure PriorityFeeConfig where
  enable_dynamic : Bool
  enable_fixed : Bool
  fixed_fee : Nat
  extra_fee : ℚ
  hard_cap : Nat
deriving DecidableEq

/-- Outcome of one call to the dynamic fee estimator: a value, an absent
result, or a failure of the external estimation call. -/
inductive EstimatorOutcome where
  | value (v : Nat)
  | absent
  | failure
deriving DecidableEq

/-- Modelled from the spec: `DynamicPriorityFee.get_priority_fee`
(`core/priority_fee/dynamic_fee.py`, not present under `src/`) returns the
estimated fee, and treats a failure of the external estimation call as
"no dynamic value available" (returns no value rather than raising):
"a failure there must be treated as no dynamic value available, falling
through to step 2, not as a fatal error". -/
def dynamic_fee_plugin : EstimatorOutcome → Option Nat
  | .value v => some v
  | .absent => none
  | .failure => none

/-- Embeds `PriorityFeeManager._get_base_fee`: prefer the value of the dynamic plugin when dynamic estimation is enabled; else the fixed fee when enabled;
else no fee.  The behaviour of the estimator on this call is the `dyn` argument. -/
def get_base_fee (cfg : PriorityFeeConfig) (dyn : EstimatorOutcome) : Option Nat :=
  match (if cfg.enable_dynamic then dynamic_fee_plugin dyn else none) with
  | some v => some v
  | none => if cfg.enable_fixed then some cfg.fixed_fee else none

/-- Embeds `PriorityFeeManager.calculate_priority_fee`:
`final_fee = int(base_fee * (1 + extra_fee))`, clamped to `hard_cap`. -/
def calculate_priority_fee (cfg : PriorityFeeConfig) (dyn : EstimatorOutcome) :
    Option Int :=
  match get_base_fee cfg dyn with
  | none => none
  | some base_fee =>
    let final_fee : Int := pyInt ((base_fee : ℚ) * (1 + cfg.extra_fee))
    some (if final_fee > (cfg.hard_cap : Int) then (cfg.hard_cap : Int) else final_fee)

/-- Concrete configuration of the first fee test vector of the spec. -/
def pfcfgA : PriorityFeeConfig :=
  { enable_dynamic := true, enable_fixed := true, fixed_fee := 1000,
    extra_fee := 1 / 10, hard_cap := 2000 }

/-- Concrete configuration of the second (clamped) fee test vector of the spec. -/
def pfcfgB : PriorityFeeConfig :=
  { enable_dynamic := true, enable_fixed := true, fixed_fee := 1000,
    extra_fee := 1 / 10, hard_cap := 1000 }

/-! ## Bonding curve model (`sell.py`) -/

/-- Errors raised by the curve parsing and pricing code in `sell.py`:
`ValueError("Invalid curve state: No data")`, `ValueError("Invalid curve
state discriminator")`, a `construct` stream error on a too-short buffer,
and `ValueError("Invalid reserve state")`. -/
inductive CurveError where
  | emptyAccount
  | invalidDiscriminator
  | malformedPayload
  | invalidReserves
deriving DecidableEq

/-- `TOKEN_DECIMALS: Final[int] = 6` in `sell.py`. -/
def TOKEN_DECIMALS : Nat := 6

/-- Modelled from the spec: `LAMPORTS_PER_SOL` is imported from `config.py`
(not present under `src/`); it is the "fixed decimal-scaling constant" for
the SOL denomination, `10^9` lamports per SOL. -/
def LAMPORTS_PER_SOL : Nat := 10 ^ 9

/-- `EXPECTED_DISCRIMINATOR: Final[bytes] = struct.pack("<Q", 6966180631402821399)`. -/
def EXPECTED_DISCRIMINATOR : List Nat := u64le 6966180631402821399

/-- The fields of `BondingCurveState._STRUCT`: five `Int64ul` then a `Flag`. -/
structure BondingCurveState where
  virtual_token_reserves : Nat
  virtual_sol_reserves : Nat
  real_token_reserves : Nat
  real_sol_reserves : Nat
  token_total_supply : Nat
  complete : Bool
deriving DecidableEq

/-- Embeds `BondingCurveState.__init__`, i.e. `_STRUCT.parse(data[8:])`:
`bs` is the buffer after the 8-byte discriminator; construct reads five
little-endian `Int64ul` at offsets 0,8,16,24,32 and one `Flag` byte at
offset 40 (true iff the byte is nonzero), raising a stream error when the
buffer is shorter than the 41 bytes it consumes. -/
def BondingCurveState.parse (bs : List Nat) : Except CurveError BondingCurveState :=
  if bs.length < 41 then .error .malformedPayload
  else .ok
    { virtual_token_reserves := decodeLE ((bs.drop 0).take 8)
      virtual_sol_reserves := decodeLE ((bs.drop 8).take 8)
      real_token_reserves := decodeLE ((bs.drop 16).take 8)
      real_sol_reserves := decodeLE ((bs.drop 24).take 8)
      token_total_supply := decodeLE ((bs.drop 32).take 8)
      complete := bs.getD 40 0 ≠ 0 }

/-- Embeds `get_pump_curve_state`: the fetched account data is `none` when
the RPC response has no value, otherwise the raw account bytes.  Absent or
empty data raises "No data"; a leading-8-byte mismatch raises the
discriminator error; otherwise the bytes after the discriminator are parsed. -/
def get_pump_curve_state (response : Option (List Nat)) :
    Except CurveError BondingCurveState :=
  match response with
  | none => .error .emptyAccount
  | some data =>
    if data.length = 0 then .error .emptyAccount
    else if data.take 8 ≠ EXPECTED_DISCRIMINATOR then .error .invalidDiscriminator
    else BondingCurveState.parse (data.drop 8)

/-- Embeds `calculate_pump_curve_price`: raises "Invalid reserve state" when
either virtual reserve is `≤ 0`, else returns
`(virtual_sol_reserves / LAMPORTS_PER_SOL) / (virtual_token_reserves / 10 ** TOKEN_DECIMALS)`
as an exact rational (Python evaluates it in floating point). -/
def calculate_pump_curve_price (curve_state : BondingCurveState) :
    Except CurveError ℚ :=
  if curve_state.virtual_token_reserves ≤ 0 ∨ curve_state.virtual_sol_reserves ≤ 0 then
    .error .invalidReserves
  else
    .ok (((curve_state.virtual_sol_reserves : ℚ) / (LAMPORTS_PER_SOL : ℚ)) /
      ((curve_state.virtual_token_reserves : ℚ) / (10 ^ TOKEN_DECIMALS : ℚ)))

/-! ## Token-creation event decoder
(`learning-examples/listen-new-tokens/listen_geyser.py`) -/

/-- Exceptions the decoding helpers in `decode_create_instruction` can raise:
`struct.error` from `struct.unpack_from` when fewer than 4 bytes remain,
`UnicodeDecodeError` from `bytes.decode()` on invalid UTF-8, and
`IndexError` from `keys[account_index]` on an out-of-range list index. -/
inductive DecodeError where
  | structError
  | unicodeDecodeError
  | indexError
deriving DecidableEq

/-- Whether a byte is a UTF-8 continuation byte (`0x80`–`0xBF`). -/
def isCont (b : Nat) : Bool :=
  0x80 ≤ b && b ≤ 0xBF

/-- Whether a byte sequence is valid UTF-8 (RFC 3629: no overlong forms, no
surrogates, no code points above `U+10FFFF`); this is exactly the set of
byte strings the Python `bytes.decode()` accepts. -/
def utf8Valid : List Nat → Bool
  | [] => true
  | b :: rest =>
    if b ≤ 0x7F then
      utf8Valid rest
    else if 0xC2 ≤ b && b ≤ 0xDF then
      match rest with
      | c :: r => isCont c && utf8Valid r
      | [] => false
    else if b = 0xE0 then
      match rest with
      | c :: d :: r => (0xA0 ≤ c && c ≤ 0xBF) && isCont d && utf8Valid r
      | _ => false
    else if (0xE1 ≤ b && b ≤ 0xEC) || b = 0xEE || b = 0xEF then
      match rest with
      | c :: d :: r => isCont c && isCont d && utf8Valid r
      | _ => false
    else if b = 0xED then
      match rest with
      | c :: d :: r => (0x80 ≤ c && c ≤ 0x9F) && isCont d && utf8Valid r
      | _ => false
    else if b = 0xF0 then
      match rest with
      | c :: d :: e :: r => (0x90 ≤ c && c ≤ 0xBF) && isCont d && isCont e && utf8Valid r
      | _ => false
    else if 0xF1 ≤ b && b ≤ 0xF3 then
      match rest with
      | c :: d :: e :: r => isCont c && isCont d && isCont e && utf8Valid r
      | _ => false
    else if b = 0xF4 then
      match rest with
      | c :: d :: e :: r => (0x80 ≤ c && c ≤ 0x8F) && isCont d && isCont e && utf8Valid r
      | _ => false
    else
      false

/-- Embeds `decode_create_instruction.read_string`: reads a 4-byte unsigned
little-endian length at `offset` (`struct.unpack_from("<I", ix_data, offset)`
raises `struct.error` when fewer than 4 bytes remain there), then takes the
slice `ix_data[offset+4 : offset+4+length]` — Python slicing silently
truncates at the end of the buffer — decodes it as UTF-8 text, and advances
the cursor by `4 + length` (the declared length, even when truncated).
Returns the decoded bytes and the new cursor. -/
def read_string (ix_data : List Nat) (offset : Nat) :
    Except DecodeError (List Nat × Nat) :=
  if ix_data.length < offset + 4 then .error .structError
  else
    let length := decodeLE ((ix_data.drop offset).take 4)
    let value := (ix_data.drop (offset + 4)).take length
    if utf8Valid value then .ok (value, offset + 4 + length)
    else .error .unicodeDecodeError

/-- Embeds `decode_create_instruction.read_pubkey`: takes the 32-byte slice
at `offset` (Python slicing, so a shorter tail is returned silently) and
advances the cursor by 32; the base58 rendering done by the source is kept
as the raw bytes. -/
def read_pubkey (ix_data : List Nat) (offset : Nat) : List Nat × Nat :=
  ((ix_data.drop offset).take 32, offset + 32)

/-- Result of resolving one positional account slot: either the sentinel
string `"N/A"` or the base58 rendering of a 32-byte key (kept as raw bytes). -/
inductive AccountKeyResult where
  | na
  | key (bytes : List Nat)
deriving DecidableEq

/-- Embeds `decode_create_instruction.get_account_key`: returns `"N/A"` when
`index >= len(accounts)`; otherwise looks up `account_index = accounts[index]`
and returns `keys[account_index]` — an unguarded Python list index that
raises `IndexError` when `account_index` is out of range of `keys`. -/
def get_account_key (keys : List (List Nat)) (accounts : List Nat)
    (index : Nat) : Except DecodeError AccountKeyResult :=
  if index ≥ accounts.length then .ok .na
  else
    let account_index := accounts.getD index 0
    match keys.get? account_index with
    | some k => .ok (.key k)
    | none => .error .indexError

/-- The decoded `token_info` dictionary built by `decode_create_instruction`. -/
structure TokenInfo where
  name : List Nat
  symbol : List Nat
  uri : List Nat
  creator : List Nat
  mint : AccountKeyResult
  metadata : AccountKeyResult
  bonding_curve : AccountKeyResult
  associated_bonding_curve : AccountKeyResult
  token_program : AccountKeyResult
  system_program : AccountKeyResult
  rent : AccountKeyResult
  user : AccountKeyResult
deriving DecidableEq

/-- The sequential payload reads of `decode_create_instruction`: starting
after the 8-byte discriminator, three length-prefixed strings (`name`,
`symbol`, `uri`) then one 32-byte `creator` key. -/
def parse_create_payload (ix_data : List Nat) :
    Except DecodeError (List Nat × List Nat × List Nat × List Nat) := do
  let offset := 8
  let (name, offset) ← read_string ix_data offset
  let (symbol, offset) ← read_string ix_data offset
  let (uri, offset) ← read_string ix_data offset
  let (creator, _) := read_pubkey ix_data offset
  return (name, symbol, uri, creator)

/-- Embeds `decode_create_instruction`: reads the payload fields in order,
then resolves the eight positional account slots 0–7 via `get_account_key`
(in the order the `token_info` dictionary is built, so the first raised
exception aborts the whole decode). -/
def decode_create_instruction (ix_data : List Nat) (keys : List (List Nat))
    (accounts : List Nat) : Except DecodeError TokenInfo := do
  let (name, symbol, uri, creator) ← parse_create_payload ix_data
  let mint ← get_account_key keys accounts 0
  let metadata ← get_account_key keys accounts 1
  let bonding_curve ← get_account_key keys accounts 2
  let associated_bonding_curve ← get_account_key keys accounts 3
  let token_program ← get_account_key keys accounts 4
  let system_program ← get_account_key keys accounts 5
  let rent ← get_account_key keys accounts 6
  let user ← get_account_key keys accounts 7
  return { name := name, symbol := symbol, uri := uri, creator := creator,
           mint := mint, metadata := metadata, bonding_curve := bonding_curve,
           associated_bonding_curve := associated_bonding_curve,
           token_program := token_program, system_program := system_program,
           rent := rent, user := user }

/-! ## Transaction submission loop (`sell.py`, `sell_token`)

The network interactions of the loop are modelled as an observable trace of
events; the per-attempt network outcomes (fresh-blockhash fetch, submit,
confirm) are supplied by an oracle `Nat → AttemptResult` indexed by the
0-based attempt number, standing for the behaviour of the external ledger. -/

/-- One network round trip performed by `sell_token`.  `submit` records the
instruction data bytes of the transaction being sent. -/
inductive NetCall where
  | balanceCheck
  | curveFetch
  | blockhashFetch
  | submit (data : List Nat)
  | confirm
deriving DecidableEq

/-- The console messages `sell_token` prints, with the payloads the claims
need (the balance is logged as the raw integer amount; the source prints it
divided by `10 ** TOKEN_DECIMALS`).  `attemptFailed n c` is
`"Attempt {n} failed: {e}"` with the 1-based attempt number and the cause. -/
inductive LogMsg where
  | tokenBalance (balance : Nat)
  | noTokensToSell
  | price
  | selling
  | minOut
  | txSent (tx : Nat)
  | txConfirmed
  | attemptFailed (attempt : Nat) (cause : Nat)
  | retryingIn (seconds : Nat)
  | maxRetriesReached
deriving DecidableEq

/-- One observable event of a `sell_token` run: a network call, an
`asyncio.sleep` of the given number of seconds, or a printed message. -/
inductive Ev where
  | net (c : NetCall)
  | sleep (seconds : Nat)
  | log (m : LogMsg)
deriving DecidableEq

/-- Outcome of one loop attempt, supplied by the environment oracle: the
attempt either succeeds with a transaction id, or raises at one of its three
network round trips (blockhash fetch, send, confirm) with an opaque cause. -/
inductive AttemptResult where
  | success (txid : Nat)
  | failAtBlockhash (cause : Nat)
  | failAtSubmit (cause : Nat)
  | failAtConfirm (txid : Nat) (cause : Nat)
deriving DecidableEq

/-- The transaction id an attempt returns, or `none` when it raises. -/
def resultTx : AttemptResult → Option Nat
  | .success txid => some txid
  | _ => none

/-- Trace of one iteration of the `for attempt in range(max_retries)` body of
`sell_token`, up to the `return`/`except` point: blockhash fetch, then send
(`submit` carries the instruction data), then the sent-print, then confirm,
then either the confirmed-print or the `"Attempt {attempt+1} failed"` print,
cut short at whichever round trip raised. -/
def attemptEvents (data : List Nat) (attempt : Nat) : AttemptResult → List Ev
  | .success tx =>
    [.net .blockhashFetch, .net (.submit data), .log (.txSent tx), .net .confirm,
     .log .txConfirmed]
  | .failAtBlockhash c =>
    [.net .blockhashFetch, .log (.attemptFailed (attempt + 1) c)]
  | .failAtSubmit c =>
    [.net .blockhashFetch, .net (.submit data), .log (.attemptFailed (attempt + 1) c)]
  | .failAtConfirm tx c =>
    [.net .blockhashFetch, .net (.submit data), .log (.txSent tx), .net .confirm,
     .log (.attemptFailed (attempt + 1) c)]

/-- Embeds the retry loop `for attempt in range(max_retries)` of `sell_token`.
`attempt` is the current 0-based index and `remaining` the number of loop
iterations left, so a call with `attempt = 0`, `remaining = max_retries`
runs the whole loop; under that invariant the test `attempt < max_retries - 1` of the source is `remaining > 0` after peeling one
iteration.  On an attempt that raises, the source logs the failure and —
when iterations remain — prints `"Retrying in {2 ** attempt} seconds..."`
and sleeps `2 ** attempt` seconds before the next iteration; when none
remain it prints the max-retries message and the loop ends, implicitly
returning `None`. -/
def sellLoop (oracle : Nat → AttemptResult) (data : List Nat) :
    Nat → Nat → List Ev × Option Nat
  | _, 0 => ([], none)
  | attempt, remaining + 1 =>
    let r := oracle attempt
    let evs := attemptEvents data attempt r
    match resultTx r with
    | some tx => (evs, some tx)
    | none =>
      if remaining > 0 then
        let rest := sellLoop oracle data (attempt + 1) remaining
        (evs ++ Ev.log (.retryingIn (2 ^ attempt)) :: Ev.sleep (2 ^ attempt) :: rest.1,
         rest.2)
      else
        (evs ++ [Ev.log .maxRetriesReached], none)

/-- The sell instruction data built inside the loop:
`struct.pack("<Q", 12502976635542562355) + struct.pack("<Q", amount) + struct.pack("<Q", min_sol_output)`
(the caller guarantees both packed values fit in 64 bits). -/
def sell_ix_data (amount : Nat) (min_sol_output : Nat) : List Nat :=
  u64le 12502976635542562355 ++ u64le amount ++ u64le min_sol_output

/-- Final outcome of a `sell_token` call: an explicit `return tx.value`, the
implicit `None` return (zero balance, or retries exhausted), or an uncaught
exception raised by the curve fetch or the price computation (those run
before the `try` of the retry loop). -/
inductive SellResult where
  | txid (tx : Nat)
  | noneReturn
  | raised (e : CurveError)
deriving DecidableEq

/-- The instruction data `sell_token` builds before the loop: the amount is
the whole fetched balance (`amount = token_balance`), and the minimum output
is `int(((balance / 10**6) * price) * (1 - slippage) * LAMPORTS_PER_SOL)`
(`token_balance_decimal = token_balance / 10 ** TOKEN_DECIMALS`, then
`min_sol_output = int((min_sol_output * slippage_factor) * LAMPORTS_PER_SOL)`). -/
def sellTokenData (token_balance : Nat) (slippage : ℚ) (token_price_sol : ℚ) :
    List Nat :=
  let token_balance_decimal : ℚ := (token_balance : ℚ) / (10 ^ TOKEN_DECIMALS : ℚ)
  let amount := token_balance
  let min_sol_output :=
    (pyInt ((token_balance_decimal * token_price_sol * (1 - slippage)) *
      (LAMPORTS_PER_SOL : ℚ))).toNat
  sell_ix_data amount min_sol_output

/-- Embeds `sell_token` as a trace of observable events plus a final outcome.
`curve_data` is what `get_account_info` returns for the bonding curve,
`token_balance` what `get_token_balance` returns, and `oracle` drives the
per-attempt network outcomes.  Mirrors the source order: balance fetch and
print; `return` on zero balance after printing "No tokens to sell."; curve
fetch, parse and price (uncaught exceptions propagate); the instruction data
(`sellTokenData`); then the retry loop. -/
def sell_token (curve_data : Option (List Nat)) (token_balance : Nat)
    (slippage : ℚ) (max_retries : Nat) (oracle : Nat → AttemptResult) :
    List Ev × SellResult :=
  let evs0 := [Ev.net .balanceCheck, Ev.log (.tokenBalance token_balance)]
  if token_balance = 0 then
    (evs0 ++ [Ev.log .noTokensToSell], .noneReturn)
  else
    let evs1 := evs0 ++ [Ev.net .curveFetch]
    match get_pump_curve_state curve_data with
    | .error e => (evs1, .raised e)
    | .ok curve_state =>
      match calculate_pump_curve_price curve_state with
      | .error e => (evs1, .raised e)
      | .ok token_price_sol =>
        let data := sellTokenData token_balance slippage token_price_sol
        let loop := sellLoop oracle data 0 max_retries
        (evs1 ++ [Ev.log .price, Ev.log .selling, Ev.log .minOut] ++ loop.1,
         match loop.2 with
         | some tx => .txid tx
         | none => .noneReturn)

/-- The number of loop attempts a trace starts, counted by its
fresh-blockhash fetches (each iteration performs exactly one, first). -/
def attempts_started : List Ev → Nat
  | [] => 0
  | Ev.net NetCall.blockhashFetch :: rest => attempts_started rest + 1
  | _ :: rest => attempts_started rest

/-- The sleep durations of a trace, in order. -/
def sleeps_performed : List Ev → List Nat
  | [] => []
  | Ev.sleep t :: rest => t :: sleeps_performed rest
  | _ :: rest => sleeps_performed rest

/-- The network calls of a trace, in order. -/
def net_calls : List Ev → List NetCall
  | [] => []
  | Ev.net c :: rest => c :: net_calls rest
  | _ :: rest => net_calls rest

/-- A concrete environment oracle whose every attempt fails at the send
round trip. -/
def oracleAllFail : Nat → AttemptResult :=
  fun _ => AttemptResult.failAtSubmit 7

/-- A concrete environment oracle whose first attempt fails at confirmation
and whose second attempt succeeds with transaction id 42. -/
def oracleSecondTry : Nat → AttemptResult :=
  fun n => if n = 0 then AttemptResult.failAtConfirm 9 7 else AttemptResult.success 42

/-- Concrete well-formed curve account bytes: the expected discriminator
followed by reserves `(2, 3, 0, 0, 0)` and a zero `complete` byte. -/
def curveDataW : List Nat :=
  EXPECTED_DISCRIMINATOR ++ u64le 2 ++ u64le 3 ++ u64le 0 ++ u64le 0 ++ u64le 0 ++ [0]

/-- The curve state `curveDataW` parses to. -/
def curveStateW : BondingCurveState :=
  { virtual_token_reserves := 2, virtual_sol_reserves := 3,
    real_token_reserves := 0, real_sol_reserves := 0,
    token_total_supply := 0, complete := false }

/-! ## Helper lemmas -/

theorem resultTx_success (tx : Nat) :
    resultTx (AttemptResult.success tx) = some tx := rfl

theorem attempts_started_append (a b : List Ev) :
    attempts_started (a ++ b) = attempts_started a + attempts_started b := by
  induction a with
  | nil => simp [attempts_started]
  | cons e rest ih =>
    cases e with
    | net c => cases c <;> simp [attempts_started, ih] <;> omega
    | sleep t => simp [attempts_started, ih]
    | log m => simp [attempts_started, ih]

theorem sleeps_performed_append (a b : List Ev) :
    sleeps_performed (a ++ b) = sleeps_performed a ++ sleeps_performed b := by
  induction a with
  | nil => simp [sleeps_performed]
  | cons e rest ih =>
    cases e with
    | net c => cases c <;> simp [sleeps_performed, ih]
    | sleep t => simp [sleeps_performed, ih]
    | log m => simp [sleeps_performed, ih]

theorem attempts_started_attemptEvents (data : List Nat) (a : Nat)
    (r : AttemptResult) : attempts_started (attemptEvents data a r) = 1 := by
  cases r <;> simp [attemptEvents, attempts_started]

theorem sleeps_performed_attemptEvents (data : List Nat) (a : Nat)
    (r : AttemptResult) : sleeps_performed (attemptEvents data a r) = [] := by
  cases r <;> simp [attemptEvents, sleeps_performed]

theorem sellLoop_fail_step (oracle : Nat → AttemptResult) (data : List Nat)
    (attempt rem : Nat) (h : resultTx (oracle attempt) = none) (hrem : 0 < rem) :
    sellLoop oracle data attempt (rem + 1) =
      (attemptEvents data attempt (oracle attempt) ++
        Ev.log (LogMsg.retryingIn (2 ^ attempt)) :: Ev.sleep (2 ^ attempt) ::
          (sellLoop oracle data (attempt + 1) rem).1,
       (sellLoop oracle data (attempt + 1) rem).2) := by
  simp [sellLoop, h, hrem]

theorem sellLoop_fail_last (oracle : Nat → AttemptResult) (data : List Nat)
    (attempt : Nat) (h : resultTx (oracle attempt) = none) :
    sellLoop oracle data attempt 1 =
      (attemptEvents data attempt (oracle attempt) ++ [Ev.log LogMsg.maxRetriesReached],
       none) := by
  simp [sellLoop, h]

theorem sellLoop_success_step (oracle : Nat → AttemptResult) (data : List Nat)
    (attempt rem tx : Nat) (h : resultTx (oracle attempt) = some tx) :
    sellLoop oracle data attempt (rem + 1) =
      (attemptEvents data attempt (oracle attempt), some tx) := by
  simp [sellLoop, h]

theorem attemptFailed_mem (data : List Nat) (a : Nat) (r : AttemptResult)
    (h : resultTx r = none) :
    ∃ c, Ev.log (LogMsg.attemptFailed (a + 1) c) ∈ attemptEvents data a r := by
  cases r with
  | success tx => simp [resultTx] at h
  | failAtBlockhash c => exact ⟨c, by simp [attemptEvents]⟩
  | failAtSubmit c => exact ⟨c, by simp [attemptEvents]⟩
  | failAtConfirm tx c => exact ⟨c, by simp [attemptEvents]⟩

theorem sellLoop_all_fail (oracle : Nat → AttemptResult) (data : List Nat)
    (hfail : ∀ i, resultTx (oracle i) = none) :
    ∀ remaining attempt, 0 < remaining →
      (sellLoop oracle data attempt remaining).2 = none ∧
      Ev.log LogMsg.maxRetriesReached ∈ (sellLoop oracle data attempt remaining).1 ∧
      ∀ i, attempt ≤ i → i < attempt + remaining →
        ∃ c, Ev.log (LogMsg.attemptFailed (i + 1) c) ∈
          (sellLoop oracle data attempt remaining).1 := by
  intro remaining
  induction remaining with
  | zero => intro attempt h; omega
  | succ rem ih =>
    intro attempt _
    match rem, ih with
    | 0, _ =>
      rw [sellLoop_fail_last oracle data attempt (hfail attempt)]
      refine ⟨rfl, by simp, ?_⟩
      intro i hle hlt
      have heq : i = attempt := by omega
      subst heq
      obtain ⟨c, hc⟩ := attemptFailed_mem data i (oracle i) (hfail i)
      exact ⟨c, List.mem_append_left _ hc⟩
    | rem + 1, ih =>
      have ihn := ih (attempt + 1) (Nat.succ_pos rem)
      rw [sellLoop_fail_step oracle data attempt (rem + 1) (hfail attempt) (Nat.succ_pos rem)]
      refine ⟨ihn.1, ?_, ?_⟩
      · exact List.mem_append_right _
          (List.mem_cons_of_mem _ (List.mem_cons_of_mem _ ihn.2.1))
      · intro i hle hlt
        rcases Nat.eq_or_lt_of_le hle with heq | hlt2
        · subst heq
          obtain ⟨c, hc⟩ := attemptFailed_mem data attempt (oracle attempt) (hfail attempt)
          exact ⟨c, List.mem_append_left _ hc⟩
        · obtain ⟨c, hc⟩ := ihn.2.2 i hlt2 (by omega)
          exact ⟨c, List.mem_append_right _
            (List.mem_cons_of_mem _ (List.mem_cons_of_mem _ hc))⟩

theorem submit_mem_attemptEvents (data : List Nat) (a : Nat) (r : AttemptResult)
    (d : List Nat) (hm : Ev.net (NetCall.submit d) ∈ attemptEvents data a r) :
    d = data := by
  cases r <;> simp [attemptEvents] at hm <;> tauto

theorem sellLoop_submit_data (oracle : Nat → AttemptResult) (data : List Nat) :
    ∀ remaining attempt d,
      Ev.net (NetCall.submit d) ∈ (sellLoop oracle data attempt remaining).1 →
      d = data := by
  intro remaining
  induction remaining with
  | zero => intro attempt d h; simp [sellLoop] at h
  | succ rem ih =>
    intro attempt d h
    rcases hr : resultTx (oracle attempt) with _ | tx
    · match rem, ih with
      | 0, _ =>
        rw [sellLoop_fail_last oracle data attempt hr] at h
        rcases List.mem_append.1 h with h | h
        · exact submit_mem_attemptEvents data attempt (oracle attempt) d h
        · simp at h
      | rem + 1, ih =>
        rw [sellLoop_fail_step oracle data attempt (rem + 1) hr (Nat.succ_pos rem)] at h
        rcases List.mem_append.1 h with h | h
        · exact submit_mem_attemptEvents data attempt (oracle attempt) d h
        · rcases h with _ | ⟨_, h⟩
          rcases h with _ | ⟨_, h⟩
          exact ih (attempt + 1) d h
    · rw [sellLoop_success_step oracle data attempt rem tx hr] at h
      exact submit_mem_attemptEvents data attempt (oracle attempt) d h

theorem sell_ix_data_amount (amount min_sol_output : Nat) :
    ((sell_ix_data amount min_sol_output).drop 8).take 8 = u64le amount := by
  simp [sell_ix_data, u64le]

theorem sell_token_run (curve_data : Option (List Nat)) (token_balance : Nat)
    (slippage : ℚ) (max_retries : Nat) (oracle : Nat → AttemptResult)
    (st : BondingCurveState) (price : ℚ)
    (hb : token_balance ≠ 0)
    (hst : get_pump_curve_state curve_data = Except.ok st)
    (hpr : calculate_pump_curve_price st = Except.ok price) :
    sell_token curve_data token_balance slippage max_retries oracle =
      ([Ev.net NetCall.balanceCheck, Ev.log (LogMsg.tokenBalance token_balance),
        Ev.net NetCall.curveFetch, Ev.log LogMsg.price, Ev.log LogMsg.selling,
        Ev.log LogMsg.minOut] ++
        (sellLoop oracle (sellTokenData token_balance slippage price) 0 max_retries).1,
       match (sellLoop oracle (sellTokenData token_balance slippage price) 0 max_retries).2 with
       | some tx => SellResult.txid tx
       | none => SellResult.noneReturn) := by
  simp [sell_token, hb, hst, hpr]

/-! ## Claim theorems -/

/-- C1: with dynamic estimation enabled but the estimator returning no value,
and the fixed fee enabled, `calculate_priority_fee` uses the fixed fee as the
base, applies the markup `final = floor(base * (1 + extra_fee_ratio))`, and
clamps the result to `hard_cap` when it exceeds it; in particular the config
`fixed_fee = 1000`, `extra_fee_ratio = 1/10` gives `1100` under
`hard_cap = 2000` and `1000` under `hard_cap = 1000`. -/
theorem c1_fixed_base_markup_and_cap :
    (∀ cfg : PriorityFeeConfig, cfg.enable_dynamic = true →
      cfg.enable_fixed = true → 0 ≤ cfg.extra_fee →
      calculate_priority_fee cfg EstimatorOutcome.absent =
        some (if ⌊(cfg.fixed_fee : ℚ) * (1 + cfg.extra_fee)⌋ > (cfg.hard_cap : Int)
              then (cfg.hard_cap : Int)
              else ⌊(cfg.fixed_fee : ℚ) * (1 + cfg.extra_fee)⌋)) ∧
    calculate_priority_fee pfcfgA EstimatorOutcome.absent = some 1100 ∧
    calculate_priority_fee pfcfgB EstimatorOutcome.absent = some 1000 := by
  refine ⟨?_, ?_, ?_⟩
  · intro cfg hd hf hr
    have hnn : (0 : ℚ) ≤ (cfg.fixed_fee : ℚ) * (1 + cfg.extra_fee) :=
      mul_nonneg (Nat.cast_nonneg _) (by linarith)
    simp [calculate_priority_fee, get_base_fee, dynamic_fee_plugin, hd, hf,
      pyInt, hnn]
  · norm_num [calculate_priority_fee, get_base_fee, dynamic_fee_plugin, pyInt, pfcfgA]
  · norm_num [calculate_priority_fee, get_base_fee, dynamic_fee_plugin, pyInt, pfcfgB]

/-- Witness for C1 at the first test vector of the spec. -/
theorem c1_fixed_base_markup_and_cap_witness :
    calculate_priority_fee pfcfgA EstimatorOutcome.absent =
      some (if ⌊(pfcfgA.fixed_fee : ℚ) * (1 + pfcfgA.extra_fee)⌋ > (pfcfgA.hard_cap : Int)
            then (pfcfgA.hard_cap : Int)
            else ⌊(pfcfgA.fixed_fee : ℚ) * (1 + pfcfgA.extra_fee)⌋) :=
  c1_fixed_base_markup_and_cap.1 pfcfgA rfl rfl (by norm_num [pfcfgA])

/-- C2: for positive virtual reserves, `calculate_pump_curve_price` returns
`(virtual_sol_reserves / LAMPORTS_PER_SOL) / (virtual_token_reserves / 10 ^ TOKEN_DECIMALS)`;
when either virtual reserve is zero it fails with the invalid-reserves error. -/
theorem c2_spot_price_formula_and_reserve_guard (s : BondingCurveState) :
    (0 < s.virtual_token_reserves → 0 < s.virtual_sol_reserves →
      calculate_pump_curve_price s =
        Except.ok (((s.virtual_sol_reserves : ℚ) / (LAMPORTS_PER_SOL : ℚ)) /
          ((s.virtual_token_reserves : ℚ) / (10 ^ TOKEN_DECIMALS : ℚ)))) ∧
    (s.virtual_token_reserves = 0 ∨ s.virtual_sol_reserves = 0 →
      calculate_pump_curve_price s = Except.error CurveError.invalidReserves) := by
  constructor
  · intro ht hs
    simp [calculate_pump_curve_price, Nat.pos_iff_ne_zero.1 ht, Nat.pos_iff_ne_zero.1 hs]
  · intro h
    rcases h with h | h <;> simp [calculate_pump_curve_price, h]

/-- Witness for C2 at a concrete curve state (both conjuncts). -/
theorem c2_spot_price_formula_and_reserve_guard_witness :
    calculate_pump_curve_price
      { virtual_token_reserves := 2, virtual_sol_reserves := 3,
        real_token_reserves := 0, real_sol_reserves := 0,
        token_total_supply := 0, complete := false } =
      Except.ok (((3 : ℚ) / (LAMPORTS_PER_SOL : ℚ)) / ((2 : ℚ) / (10 ^ TOKEN_DECIMALS : ℚ))) ∧
    calculate_pump_curve_price
      { virtual_token_reserves := 0, virtual_sol_reserves := 3,
        real_token_reserves := 0, real_sol_reserves := 0,
        token_total_supply := 0, complete := false } =
      Except.error CurveError.invalidReserves :=
  ⟨(c2_spot_price_formula_and_reserve_guard _).1 (by decide) (by decide),
   (c2_spot_price_formula_and_reserve_guard _).2 (Or.inl rfl)⟩

/-- C4: with dynamic estimation enabled, a failing dynamic-estimator call
produces exactly the same fee computation as an absent result — it falls
through to the fixed fee when that is enabled and is never surfaced as an
error (the fee functions are total and return an ordinary optional fee). -/
theorem c4_estimator_failure_falls_through (cfg : PriorityFeeConfig)
    (hd : cfg.enable_dynamic = true) :
    calculate_priority_fee cfg EstimatorOutcome.failure =
      calculate_priority_fee cfg EstimatorOutcome.absent ∧
    (cfg.enable_fixed = true →
      get_base_fee cfg EstimatorOutcome.failure = some cfg.fixed_fee) := by
  constructor
  · simp [calculate_priority_fee, get_base_fee, dynamic_fee_plugin, hd]
  · intro hf
    simp [get_base_fee, dynamic_fee_plugin, hd, hf]

/-- Witness for C4 at a concrete configuration. -/
theorem c4_estimator_failure_falls_through_witness :
    calculate_priority_fee pfcfgA EstimatorOutcome.failure =
      calculate_priority_fee pfcfgA EstimatorOutcome.absent ∧
    (pfcfgA.enable_fixed = true →
      get_base_fee pfcfgA EstimatorOutcome.failure = some pfcfgA.fixed_fee) :=
  c4_estimator_failure_falls_through pfcfgA rfl

/-- C7: `get_pump_curve_state` fails with the empty-account error when the
account data is absent or zero-length; fails with the discriminator error
when the leading 8 bytes differ from `EXPECTED_DISCRIMINATOR`; and otherwise
(given the 41 bytes the layout needs) decodes the five unsigned 64-bit
little-endian fields at offsets 8, 16, 24, 32, 40 and the boolean `complete`
byte at offset 48, in that fixed order. -/
theorem c7_curve_account_parse (response : Option (List Nat)) :
    ((response = none ∨ response = some []) →
      get_pump_curve_state response = Except.error CurveError.emptyAccount) ∧
    (∀ data, response = some data → data ≠ [] →
      data.take 8 ≠ EXPECTED_DISCRIMINATOR →
      get_pump_curve_state response = Except.error CurveError.invalidDiscriminator) ∧
    (∀ data, response = some data → data.take 8 = EXPECTED_DISCRIMINATOR →
      49 ≤ data.length →
      get_pump_curve_state response = Except.ok
        { virtual_token_reserves := decodeLE ((data.drop 8).take 8)
          virtual_sol_reserves := decodeLE ((data.drop 16).take 8)
          real_token_reserves := decodeLE ((data.drop 24).take 8)
          real_sol_reserves := decodeLE ((data.drop 32).take 8)
          token_total_supply := decodeLE ((data.drop 40).take 8)
          complete := data.getD 48 0 ≠ 0 }) := by
  refine ⟨?_, ?_, ?_⟩
  · rintro (rfl | rfl) <;> simp [get_pump_curve_state]
  · rintro data rfl hne hdisc
    simp [get_pump_curve_state, List.length_eq_zero, hne, hdisc]
  · rintro data rfl hdisc hlen
    have hne : data.length ≠ 0 := by
      intro h
      rw [List.length_eq_zero] at h
      subst h
      exact absurd hdisc.symm (by decide)
    have hlen2 : ¬ ((data.drop 8).length < 41) := by
      simp [List.length_drop]; omega
    simp only [get_pump_curve_state, hne, hdisc, BondingCurveState.parse, hlen2,
      ne_eq, not_true_eq_false, if_false, ite_false]
    simp [List.drop_drop, List.getD_eq_getD_get?, List.getElem?_drop]

/-- Witness for C7: the concrete buffer `curveDataW` parses to `curveStateW`. -/
theorem c7_curve_account_parse_witness :
    get_pump_curve_state (some curveDataW) = Except.ok curveStateW :=
  ((c7_curve_account_parse (some curveDataW)).2.2 curveDataW rfl (by decide)
    (by decide)).trans (by decide)

/-- C9: a zero fetched balance makes `sell_token` print the balance and
"No tokens to sell." and return normally, with the balance check as its only
network call — no curve fetch, blockhash fetch, submission or confirmation. -/
theorem c9_zero_balance_noop (curve_data : Option (List Nat)) (slippage : ℚ)
    (max_retries : Nat) (oracle : Nat → AttemptResult) :
    sell_token curve_data 0 slippage max_retries oracle =
      ([Ev.net NetCall.balanceCheck, Ev.log (LogMsg.tokenBalance 0),
        Ev.log LogMsg.noTokensToSell], SellResult.noneReturn) ∧
    net_calls (sell_token curve_data 0 slippage max_retries oracle).1 =
      [NetCall.balanceCheck] := by
  constructor
  · simp [sell_token]
  · simp [sell_token, net_calls]

/-- C3: for a 3-retry loop in which every attempt fails, exactly 3 attempts
are started, the sleeps between them are `1 * 1` and `1 * 2` seconds (the
backoff base of the source is 1 second, doubled per attempt), and the loop ends
with the terminal max-retries report and no transaction; if the first
attempt fails and the second succeeds with id `tx`, exactly 2 attempts are
started, exactly the one `1 * 1`-second sleep happens, and the loop returns
`tx`. -/
theorem c3_retry_attempt_and_sleep_schedule :
    (∀ (oracle : Nat → AttemptResult) (data : List Nat),
      (∀ i, resultTx (oracle i) = none) →
      attempts_started (sellLoop oracle data 0 3).1 = 3 ∧
      sleeps_performed (sellLoop oracle data 0 3).1 = [1 * 1, 1 * 2] ∧
      (sellLoop oracle data 0 3).2 = none ∧
      Ev.log LogMsg.maxRetriesReached ∈ (sellLoop oracle data 0 3).1) ∧
    (∀ (oracle : Nat → AttemptResult) (data : List Nat) (tx : Nat),
      resultTx (oracle 0) = none → oracle 1 = AttemptResult.success tx →
      attempts_started (sellLoop oracle data 0 3).1 = 2 ∧
      sleeps_performed (sellLoop oracle data 0 3).1 = [1 * 1] ∧
      (sellLoop oracle data 0 3).2 = some tx) := by
  constructor
  · intro oracle data hfail
    simp [sellLoop, hfail 0, hfail 1, hfail 2, attempts_started_append,
      sleeps_performed_append, attempts_started_attemptEvents,
      sleeps_performed_attemptEvents, attempts_started, sleeps_performed]
  · intro oracle data tx h0 h1
    simp [sellLoop, h0, h1, resultTx_success, attempts_started_append,
      sleeps_performed_append, attempts_started_attemptEvents,
      sleeps_performed_attemptEvents, attempts_started, sleeps_performed]

/-- Witness for C3 with the two concrete oracles. -/
theorem c3_retry_attempt_and_sleep_schedule_witness :
    (attempts_started (sellLoop oracleAllFail [] 0 3).1 = 3 ∧
     sleeps_performed (sellLoop oracleAllFail [] 0 3).1 = [1 * 1, 1 * 2] ∧
     (sellLoop oracleAllFail [] 0 3).2 = none ∧
     Ev.log LogMsg.maxRetriesReached ∈ (sellLoop oracleAllFail [] 0 3).1) ∧
    (attempts_started (sellLoop oracleSecondTry [] 0 3).1 = 2 ∧
     sleeps_performed (sellLoop oracleSecondTry [] 0 3).1 = [1 * 1] ∧
     (sellLoop oracleSecondTry [] 0 3).2 = some 42) :=
  ⟨c3_retry_attempt_and_sleep_schedule.1 oracleAllFail [] (fun _ => rfl),
   c3_retry_attempt_and_sleep_schedule.2 oracleSecondTry [] 42 rfl rfl⟩

/-- C5 counterexample: a buffer whose 4-byte header declares length 5 while
only 2 bytes remain.  The claim says the read fails with a malformed-payload
error; actually `read_string` succeeds, returning the truncated 2-byte text
and advancing the cursor past the end of the buffer. -/
theorem c5_truncation_counterexample :
    decodeLE ((([5, 0, 0, 0, 97, 98] : List Nat).drop 0).take 4) = 5 ∧
    ([5, 0, 0, 0, 97, 98] : List Nat).length - (0 + 4) = 2 ∧
    read_string [5, 0, 0, 0, 97, 98] 0 = Except.ok ([97, 98], 9) := by
  decide

/-- C5 amended: `read_string` never checks the declared length against the
remaining buffer.  Whenever at least 4 header bytes remain at the cursor and
the remaining bytes (truncated to the declared length) are valid text, it
succeeds, returning `min(declared, remaining)` bytes and advancing the
cursor by `4 + declared`; it fails only when fewer than 4 bytes remain for
the header, or with a text-decode error on invalid bytes. -/
theorem c5_read_string_truncates (ix_data : List Nat) (offset : Nat)
    (h4 : offset + 4 ≤ ix_data.length)
    (hu : utf8Valid ((ix_data.drop (offset + 4)).take
      (decodeLE ((ix_data.drop offset).take 4))) = true) :
    read_string ix_data offset =
      Except.ok ((ix_data.drop (offset + 4)).take (decodeLE ((ix_data.drop offset).take 4)),
        offset + 4 + decodeLE ((ix_data.drop offset).take 4)) ∧
    ((ix_data.drop (offset + 4)).take (decodeLE ((ix_data.drop offset).take 4))).length =
      min (decodeLE ((ix_data.drop offset).take 4)) (ix_data.length - (offset + 4)) := by
  have hnl : ¬ (ix_data.length < offset + 4) := by omega
  constructor
  · simp [read_string, hnl, hu]
  · simp [List.length_take, List.length_drop]

/-- Witness for the amended C5 claim on the counterexample buffer. -/
theorem c5_read_string_truncates_witness :
    read_string [5, 0, 0, 0, 97, 98] 0 = Except.ok ([97, 98], 9) :=
  ((c5_read_string_truncates [5, 0, 0, 0, 97, 98] 0 (by decide) (by decide)).1).trans
    (by decide)

/-- C6 counterexample: with transaction key list `[]` and instruction
account-index list `[0]`, slots 1–7 are out of range of the index list and
would resolve to "N/A" (shown for slot 1), but the whole decode fails with
an `IndexError` instead of succeeding, because the table entry `0` of slot 0 is
an out-of-range index into the empty key list and `keys[account_index]` is
unguarded. -/
theorem c6_unguarded_key_index_counterexample :
    get_account_key [] [0] 1 = Except.ok AccountKeyResult.na ∧
    ([] : List (List Nat)).length ≤ 0 ∧
    decode_create_instruction
      (List.replicate 8 0 ++ [0, 0, 0, 0] ++ [0, 0, 0, 0] ++ [0, 0, 0, 0]) [] [0] =
      Except.error DecodeError.indexError := by
  decide

/-- C6 amended: a slot position out of range of the account-index
list of the instruction yields the sentinel "N/A" without failing, and when every
slot resolves without error — in particular when the index list is empty, so
all eight slots are out of range — the whole decode still succeeds; but an
in-range slot whose account-table entry is out of range of the transaction
key list raises an `IndexError` that fails the whole decode. -/
theorem c6_slot_sentinel_and_key_index_guard :
    (∀ (keys : List (List Nat)) (accounts : List Nat) (index : Nat),
      accounts.length ≤ index →
      get_account_key keys accounts index = Except.ok AccountKeyResult.na) ∧
    (∀ (keys : List (List Nat)) (accounts : List Nat) (index : Nat),
      index < accounts.length → keys.length ≤ accounts.getD index 0 →
      get_account_key keys accounts index = Except.error DecodeError.indexError) ∧
    (∀ (ix_data : List Nat) (keys : List (List Nat))
      (name symbol uri creator : List Nat),
      parse_create_payload ix_data = Except.ok (name, symbol, uri, creator) →
      decode_create_instruction ix_data keys [] =
        Except.ok { name := name, symbol := symbol, uri := uri, creator := creator,
                    mint := AccountKeyResult.na, metadata := AccountKeyResult.na,
                    bonding_curve := AccountKeyResult.na,
                    associated_bonding_curve := AccountKeyResult.na,
                    token_program := AccountKeyResult.na,
                    system_program := AccountKeyResult.na,
                    rent := AccountKeyResult.na, user := AccountKeyResult.na }) := by
  refine ⟨?_, ?_, ?_⟩
  · intro keys accounts index h
    simp [get_account_key, h]
  · intro keys accounts index hlt hge
    have hnone : keys.get? (accounts.getD index 0) = none := List.get?_eq_none.2 hge
    simp only [List.getD_eq_getD_get?, List.get?_eq_getElem?] at hnone
    rw [get_account_key, if_neg (by omega)]
    simp [hnone]
  · intro ix_data keys name symbol uri creator h
    simp [decode_create_instruction, h, get_account_key, Bind.bind, Except.bind,
      Pure.pure, Except.pure]

/-- Witness for the amended C6 claim: a concrete empty-payload instruction
with a nonempty key list and empty index list decodes with all slots "N/A". -/
theorem c6_slot_sentinel_and_key_index_guard_witness :
    decode_create_instruction
      (List.replicate 8 0 ++ [0, 0, 0, 0] ++ [0, 0, 0, 0] ++ [0, 0, 0, 0])
      [[1]] [] =
      Except.ok { name := [], symbol := [], uri := [], creator := [],
                  mint := AccountKeyResult.na, metadata := AccountKeyResult.na,
                  bonding_curve := AccountKeyResult.na,
                  associated_bonding_curve := AccountKeyResult.na,
                  token_program := AccountKeyResult.na,
                  system_program := AccountKeyResult.na,
                  rent := AccountKeyResult.na, user := AccountKeyResult.na } :=
  c6_slot_sentinel_and_key_index_guard.2.2
    (List.replicate 8 0 ++ [0, 0, 0, 0] ++ [0, 0, 0, 0] ++ [0, 0, 0, 0])
    [[1]] [] [] [] [] (by decide)

/-- C8: when every attempt of a `sell_token` run fails (after a successful
setup), the final outcome of the call is the non-success `noneReturn` — distinct
from every `txid tx` success outcome — and the output of the run reports the
terminal max-retries message as well as, for every attempt, a failure
message carrying the 1-based number of that attempt and its cause. -/
theorem c8_exhausted_retries_terminal_failure (curve_data : Option (List Nat))
    (token_balance : Nat) (slippage : ℚ) (max_retries : Nat)
    (oracle : Nat → AttemptResult) (st : BondingCurveState) (price : ℚ)
    (hb : token_balance ≠ 0) (hmr : 0 < max_retries)
    (hst : get_pump_curve_state curve_data = Except.ok st)
    (hpr : calculate_pump_curve_price st = Except.ok price)
    (hfail : ∀ i, resultTx (oracle i) = none) :
    (sell_token curve_data token_balance slippage max_retries oracle).2 =
      SellResult.noneReturn ∧
    (∀ tx, (sell_token curve_data token_balance slippage max_retries oracle).2 ≠
      SellResult.txid tx) ∧
    Ev.log LogMsg.maxRetriesReached ∈
      (sell_token curve_data token_balance slippage max_retries oracle).1 ∧
    (∀ i, i < max_retries → ∃ c, Ev.log (LogMsg.attemptFailed (i + 1) c) ∈
      (sell_token curve_data token_balance slippage max_retries oracle).1) := by
  have hloop := sellLoop_all_fail oracle (sellTokenData token_balance slippage price)
    hfail max_retries 0 hmr
  rw [sell_token_run curve_data token_balance slippage max_retries oracle st price
    hb hst hpr]
  refine ⟨?_, ?_, ?_, ?_⟩
  · simp [hloop.1]
  · intro tx
    simp [hloop.1]
  · exact List.mem_append_right _ hloop.2.1
  · intro i hi
    obtain ⟨c, hc⟩ := hloop.2.2 i (Nat.zero_le i) (by omega)
    exact ⟨c, List.mem_append_right _ hc⟩

/-- Witness for C8 at concrete inputs: balance 5, well-formed curve data,
3 retries, every attempt failing at the send round trip. -/
theorem c8_exhausted_retries_terminal_failure_witness :
    (sell_token (some curveDataW) 5 (1 / 4) 3 oracleAllFail).2 =
      SellResult.noneReturn ∧
    Ev.log LogMsg.maxRetriesReached ∈
      (sell_token (some curveDataW) 5 (1 / 4) 3 oracleAllFail).1 :=
  have h := c8_exhausted_retries_terminal_failure (some curveDataW) 5 (1 / 4) 3
    oracleAllFail curveStateW (3 / 2000) (by decide) (by decide) (by decide)
    (by norm_num [calculate_pump_curve_price, curveStateW, LAMPORTS_PER_SOL,
      TOKEN_DECIMALS]) (fun _ => rfl)
  ⟨h.1, h.2.2.1⟩

/-- C10: every submitted transaction of a `sell_token` run carries, in the
unsigned 64-bit little-endian word after the 8-byte discriminator of its
instruction data, exactly the whole fetched token balance — the full holding
is sold, never a partial amount, and the amount is the same on every retry
(every submit event of the trace decodes to the same balance). -/
theorem c10_sell_amount_full_balance (curve_data : Option (List Nat))
    (token_balance : Nat) (slippage : ℚ) (max_retries : Nat)
    (oracle : Nat → AttemptResult) (d : List Nat)
    (hb : token_balance ≠ 0) (hlt : token_balance < 2 ^ 64)
    (hmem : Ev.net (NetCall.submit d) ∈
      (sell_token curve_data token_balance slippage max_retries oracle).1) :
    decodeLE ((d.drop 8).take 8) = token_balance := by
  rcases hst : get_pump_curve_state curve_data with e | st
  · simp [sell_token, hb, hst] at hmem
  · rcases hpr : calculate_pump_curve_price st with e | price
    · simp [sell_token, hb, hst, hpr] at hmem
    · rw [sell_token_run curve_data token_balance slippage max_retries oracle st
        price hb hst hpr] at hmem
      rcases List.mem_append.1 hmem with h | h
      · simp at h
      · have hdata := sellLoop_submit_data oracle
          (sellTokenData token_balance slippage price) max_retries 0 d h
        rw [hdata, sellTokenData, sell_ix_data_amount, decodeLE_u64le]
        exact Nat.mod_eq_of_lt hlt

/-- Witness for C10: the submit event of a concrete failing one-attempt run
carries the full balance 5 in its amount word. -/
theorem c10_sell_amount_full_balance_witness :
    decodeLE (((sellTokenData 5 (1 / 4) (3 / 2000)).drop 8).take 8) = 5 :=
  c10_sell_amount_full_balance (some curveDataW) 5 (1 / 4) 1 oracleAllFail
    (sellTokenData 5 (1 / 4) (3 / 2000)) (by decide) (by decide)
    (by
      rw [sell_token_run (some curveDataW) 5 (1 / 4) 1 oracleAllFail curveStateW
        (3 / 2000) (by decide) (by decide)
        (by norm_num [calculate_pump_curve_price, curveStateW, LAMPORTS_PER_SOL,
          TOKEN_DECIMALS])]
      rw [sellLoop_fail_last oracleAllFail _ 0 rfl]
      simp [attemptEvents, oracleAllFail])
